import Mathlib

/-!
Shallow embedding of `src/transformers/models/sam_hq/configuration_sam_hq.py`.

Python integers are modelled as `Int`; Python floats are modelled as `ℚ`
(every numeric literal appearing in the file and in the inputs considered
here is exactly representable as a binary64 float, so this is faithful on
those values).  Python `//` on ints is floor division, `Int.fdiv`.
Python `int()` on a non-negative-or-negative rational truncates toward
zero.  Keyword-argument calls are modelled by an "args" record with one
`Option` field per declared constructor parameter (`none` = argument not
supplied, so the declared default applies).  The extra `**kwargs` any
config forwards to the generic base-configuration layer are out of scope
of this file (that layer is an external collaborator) and are not
modelled.  `a // b` raises `ZeroDivisionError` in Python when `b = 0`, so
the prompt-encoder constructor, which divides by `patch_size`, is
fallible and returns `Except`.
-/

/-- Python `int(q)`: truncation toward zero (`Int.tdiv` truncates toward
zero and a rational's denominator is positive). -/
def pyInt (q : ℚ) : Int := q.num.tdiv q.den

/-- Python `round(q)` for a rational, rounding to nearest with ties to
even (banker's rounding).  This definition follows the SPEC's words
("derived as `round(hidden_size * mlp_ratio)`"); the source itself uses
`int(...)`.  It exists only to be compared with the source's behaviour. -/
def specRound (q : ℚ) : Int :=
  let f : Int := ⌊q⌋
  let r : ℚ := q - (f : ℚ)
  if r < 1/2 then f
  else if 1/2 < r then f + 1
  else if f % 2 = 0 then f else f + 1

/-- Errors Python can raise while running the constructors in this file. -/
inductive PyError where
  | zeroDivisionError : PyError
  deriving DecidableEq, Repr

/-- The keyword arguments of `SAMHQPromptEncoderConfig.__init__`
(configuration_sam_hq.py lines 49-59); `none` means "not supplied". -/
structure PromptArgs where
  hidden_size : Option Int
  image_size : Option Int
  patch_size : Option Int
  mask_input_channels : Option Int
  num_point_embeddings : Option Int
  hidden_act : Option String
  layer_norm_eps : Option ℚ
  deriving DecidableEq, Repr

/-- The empty keyword-argument list (every parameter defaulted). -/
def noPromptArgs : PromptArgs :=
  ⟨none, none, none, none, none, none, none⟩

/-- The state `SAMHQPromptEncoderConfig.__init__` leaves on `self`
(configuration_sam_hq.py lines 61-68). -/
structure SAMHQPromptEncoderConfig where
  hidden_size : Int
  image_size : Int
  patch_size : Int
  image_embedding_size : Int
  mask_input_channels : Int
  num_point_embeddings : Int
  hidden_act : String
  layer_norm_eps : ℚ
  deriving DecidableEq, Repr

/-- `SAMHQPromptEncoderConfig(**a)` (configuration_sam_hq.py lines 49-68).
Defaults: `hidden_size=256, image_size=1024, patch_size=16,
mask_input_channels=16, num_point_embeddings=4, hidden_act="gelu",
layer_norm_eps=1e-6`.  Line 64 computes
`image_embedding_size = image_size // patch_size`, which raises
`ZeroDivisionError` when `patch_size` is zero; there is no other
validation of `patch_size`. -/
def SAMHQPromptEncoderConfig.fromArgs (a : PromptArgs) :
    Except PyError SAMHQPromptEncoderConfig :=
  let hidden_size := a.hidden_size.getD 256
  let image_size := a.image_size.getD 1024
  let patch_size := a.patch_size.getD 16
  if patch_size = 0 then .error .zeroDivisionError
  else .ok
    { hidden_size := hidden_size
      image_size := image_size
      patch_size := patch_size
      image_embedding_size := Int.fdiv image_size patch_size
      mask_input_channels := a.mask_input_channels.getD 16
      num_point_embeddings := a.num_point_embeddings.getD 4
      hidden_act := a.hidden_act.getD "gelu"
      layer_norm_eps := a.layer_norm_eps.getD (1/1000000) }

/-- Attribute names `SAMHQPromptEncoderConfig.__init__` assigns on `self`,
in source order (configuration_sam_hq.py lines 61-68). -/
def SAMHQPromptEncoderConfig.attrNames : List String :=
  ["hidden_size", "image_size", "patch_size", "image_embedding_size",
   "mask_input_channels", "num_point_embeddings", "hidden_act",
   "layer_norm_eps"]

/-- The keyword arguments of `SAMHQMaskDecoderConfig.__init__`
(configuration_sam_hq.py lines 107-121).  The source's sixth parameter is
literally spelled `attention_downsam_hqple_rate` (lines 114 and 129). -/
structure MaskArgs where
  hidden_size : Option Int
  hidden_act : Option String
  mlp_dim : Option Int
  num_hidden_layers : Option Int
  num_attention_heads : Option Int
  attention_downsam_hqple_rate : Option Int
  num_multimask_outputs : Option Int
  iou_head_depth : Option Int
  iou_head_hidden_dim : Option Int
  layer_norm_eps : Option ℚ
  vision_encoder_dim : Option Int
  deriving DecidableEq, Repr

/-- The empty keyword-argument list (every parameter defaulted). -/
def noMaskArgs : MaskArgs :=
  ⟨none, none, none, none, none, none, none, none, none, none, none⟩

/-- The state `SAMHQMaskDecoderConfig.__init__` leaves on `self`
(configuration_sam_hq.py lines 122-133), in source assignment order. -/
structure SAMHQMaskDecoderConfig where
  vision_encoder_dim : Int
  hidden_size : Int
  hidden_act : String
  mlp_dim : Int
  num_hidden_layers : Int
  num_attention_heads : Int
  attention_downsam_hqple_rate : Int
  num_multimask_outputs : Int
  iou_head_depth : Int
  iou_head_hidden_dim : Int
  layer_norm_eps : ℚ
  deriving DecidableEq, Repr

/-- `SAMHQMaskDecoderConfig(**a)` (configuration_sam_hq.py lines 107-133).
Defaults: `hidden_size=256, hidden_act="relu", mlp_dim=2048,
num_hidden_layers=2, num_attention_heads=8,
attention_downsam_hqple_rate=2, num_multimask_outputs=3, iou_head_depth=3,
iou_head_hidden_dim=256, layer_norm_eps=1e-6, vision_encoder_dim=768`.
No derived fields, no validation. -/
def SAMHQMaskDecoderConfig.fromArgs (a : MaskArgs) : SAMHQMaskDecoderConfig :=
  { vision_encoder_dim := a.vision_encoder_dim.getD 768
    hidden_size := a.hidden_size.getD 256
    hidden_act := a.hidden_act.getD "relu"
    mlp_dim := a.mlp_dim.getD 2048
    num_hidden_layers := a.num_hidden_layers.getD 2
    num_attention_heads := a.num_attention_heads.getD 8
    attention_downsam_hqple_rate := a.attention_downsam_hqple_rate.getD 2
    num_multimask_outputs := a.num_multimask_outputs.getD 3
    iou_head_depth := a.iou_head_depth.getD 3
    iou_head_hidden_dim := a.iou_head_hidden_dim.getD 256
    layer_norm_eps := a.layer_norm_eps.getD (1/1000000) }

/-- Attribute names `SAMHQMaskDecoderConfig.__init__` assigns on `self`,
in source order (configuration_sam_hq.py lines 123-133); the name on line
129 is the literal identifier from the source. -/
def SAMHQMaskDecoderConfig.attrNames : List String :=
  ["vision_encoder_dim", "hidden_size", "hidden_act", "mlp_dim",
   "num_hidden_layers", "num_attention_heads",
   "attention_downsam_hqple_rate", "num_multimask_outputs",
   "iou_head_depth", "iou_head_hidden_dim", "layer_norm_eps"]

/-- The keyword arguments of `SAMHQVisionConfig.__init__`
(configuration_sam_hq.py lines 188-210).  `mlp_dim : none` covers both an
absent argument and an explicit `mlp_dim=None`, the two cases Python's
`if mlp_dim is None` test cannot distinguish. -/
structure VisionArgs where
  hidden_size : Option Int
  output_channels : Option Int
  num_hidden_layers : Option Int
  num_attention_heads : Option Int
  num_channels : Option Int
  image_size : Option Int
  patch_size : Option Int
  hidden_act : Option String
  layer_norm_eps : Option ℚ
  attention_dropout : Option ℚ
  initializer_range : Option ℚ
  qkv_bias : Option Bool
  mlp_ratio : Option ℚ
  use_abs_pos : Option Bool
  use_rel_pos : Option Bool
  window_size : Option Int
  global_attn_indexes : Option (List Int)
  num_pos_feats : Option Int
  mlp_dim : Option Int
  deriving DecidableEq, Repr

/-- The empty keyword-argument list (every parameter defaulted). -/
def noVisionArgs : VisionArgs :=
  ⟨none, none, none, none, none, none, none, none, none, none,
   none, none, none, none, none, none, none, none, none⟩

/-- The state `SAMHQVisionConfig.__init__` leaves on `self`
(configuration_sam_hq.py lines 211-231). -/
structure SAMHQVisionConfig where
  hidden_size : Int
  output_channels : Int
  num_hidden_layers : Int
  num_attention_heads : Int
  num_channels : Int
  image_size : Int
  patch_size : Int
  hidden_act : String
  layer_norm_eps : ℚ
  attention_dropout : ℚ
  initializer_range : ℚ
  qkv_bias : Bool
  mlp_ratio : ℚ
  use_abs_pos : Bool
  use_rel_pos : Bool
  window_size : Int
  global_attn_indexes : List Int
  num_pos_feats : Int
  mlp_dim : Int
  deriving DecidableEq, Repr

/-- `SAMHQVisionConfig(**a)` (configuration_sam_hq.py lines 188-231).
Defaults: `hidden_size=768, output_channels=256, num_hidden_layers=12,
num_attention_heads=12, num_channels=3, image_size=1024, patch_size=16,
hidden_act="gelu", layer_norm_eps=1e-06, attention_dropout=0.0,
initializer_range=1e-10, qkv_bias=True, mlp_ratio=4.0, use_abs_pos=True,
use_rel_pos=True, window_size=14, global_attn_indexes=[2, 5, 8, 11],
num_pos_feats=128, mlp_dim=None`.  Line 231:
`self.mlp_dim = int(hidden_size * mlp_ratio) if mlp_dim is None else mlp_dim`.
This value-level model copies the `global_attn_indexes` list; the
reference-level model of Python's shared mutable default for that
parameter is `samhqVisionInitRef` below. -/
def SAMHQVisionConfig.fromArgs (a : VisionArgs) : SAMHQVisionConfig :=
  let hidden_size := a.hidden_size.getD 768
  let mlp_ratio := a.mlp_ratio.getD 4
  { hidden_size := hidden_size
    output_channels := a.output_channels.getD 256
    num_hidden_layers := a.num_hidden_layers.getD 12
    num_attention_heads := a.num_attention_heads.getD 12
    num_channels := a.num_channels.getD 3
    image_size := a.image_size.getD 1024
    patch_size := a.patch_size.getD 16
    hidden_act := a.hidden_act.getD "gelu"
    layer_norm_eps := a.layer_norm_eps.getD (1/1000000)
    attention_dropout := a.attention_dropout.getD 0
    initializer_range := a.initializer_range.getD (1/10000000000)
    qkv_bias := a.qkv_bias.getD true
    mlp_ratio := mlp_ratio
    use_abs_pos := a.use_abs_pos.getD true
    use_rel_pos := a.use_rel_pos.getD true
    window_size := a.window_size.getD 14
    global_attn_indexes := a.global_attn_indexes.getD [2, 5, 8, 11]
    num_pos_feats := a.num_pos_feats.getD 128
    mlp_dim :=
      match a.mlp_dim with
      | none => pyInt ((hidden_size : ℚ) * mlp_ratio)
      | some m => m }

/-- `to_dict` restricted to the constructor parameters: an instance turned
back into a keyword-argument mapping, every declared parameter present.
(`PretrainedConfig.to_dict` returns the full `__dict__`; the derived key
`mlp_dim` carries the stored value, so feeding the mapping back takes the
`mlp_dim is not None` branch.  Keys that are not constructor parameters
travel through `**kwargs` to the out-of-scope base layer.) -/
def SAMHQVisionConfig.toArgs (c : SAMHQVisionConfig) : VisionArgs :=
  { hidden_size := some c.hidden_size
    output_channels := some c.output_channels
    num_hidden_layers := some c.num_hidden_layers
    num_attention_heads := some c.num_attention_heads
    num_channels := some c.num_channels
    image_size := some c.image_size
    patch_size := some c.patch_size
    hidden_act := some c.hidden_act
    layer_norm_eps := some c.layer_norm_eps
    attention_dropout := some c.attention_dropout
    initializer_range := some c.initializer_range
    qkv_bias := some c.qkv_bias
    mlp_ratio := some c.mlp_ratio
    use_abs_pos := some c.use_abs_pos
    use_rel_pos := some c.use_rel_pos
    window_size := some c.window_size
    global_attn_indexes := some c.global_attn_indexes
    num_pos_feats := some c.num_pos_feats
    mlp_dim := some c.mlp_dim }

/-- `to_dict` restricted to the constructor parameters of
`SAMHQPromptEncoderConfig` (the derived `image_embedding_size` key is not
a constructor parameter; fed back through `**kwargs` it is overwritten by
line 64's recomputation). -/
def SAMHQPromptEncoderConfig.toArgs (c : SAMHQPromptEncoderConfig) :
    PromptArgs :=
  { hidden_size := some c.hidden_size
    image_size := some c.image_size
    patch_size := some c.patch_size
    mask_input_channels := some c.mask_input_channels
    num_point_embeddings := some c.num_point_embeddings
    hidden_act := some c.hidden_act
    layer_norm_eps := some c.layer_norm_eps }

/-- `to_dict` restricted to the constructor parameters of
`SAMHQMaskDecoderConfig`. -/
def SAMHQMaskDecoderConfig.toArgs (c : SAMHQMaskDecoderConfig) : MaskArgs :=
  { hidden_size := some c.hidden_size
    hidden_act := some c.hidden_act
    mlp_dim := some c.mlp_dim
    num_hidden_layers := some c.num_hidden_layers
    num_attention_heads := some c.num_attention_heads
    attention_downsam_hqple_rate := some c.attention_downsam_hqple_rate
    num_multimask_outputs := some c.num_multimask_outputs
    iou_head_depth := some c.iou_head_depth
    iou_head_hidden_dim := some c.iou_head_hidden_dim
    layer_norm_eps := some c.layer_norm_eps
    vision_encoder_dim := some c.vision_encoder_dim }

/-- A Python value a `SAMHQConfig` sub-config argument (or stored
attribute) can dynamically be: `None`, an already-constructed sub-config
instance, or a plain keyword mapping. -/
inductive SubConfigValue (C A : Type) where
  | pynone : SubConfigValue C A
  | inst : C → SubConfigValue C A
  | dict : A → SubConfigValue C A
  deriving DecidableEq, Repr

/-- Lines 295-304 of `SAMHQConfig.__init__`, for one sub-config: `None`
becomes `{}`; an instance becomes its `to_dict`; a mapping is kept. -/
def normalizeArg {C A : Type} (toA : C → A) (emptyA : A) :
    SubConfigValue C A → A
  | .pynone => emptyA
  | .inst c => toA c
  | .dict d => d

/-- The state `SAMHQConfig.__init__` leaves on `self`
(configuration_sam_hq.py lines 306-309).  The attribute types are the
dynamic `SubConfigValue` unions so that "always a concrete instance,
never `None`, never a raw mapping" is a statement, not a typing
convention. -/
structure SAMHQConfig where
  vision_config : SubConfigValue SAMHQVisionConfig VisionArgs
  prompt_encoder_config : SubConfigValue SAMHQPromptEncoderConfig PromptArgs
  mask_decoder_config : SubConfigValue SAMHQMaskDecoderConfig MaskArgs
  initializer_range : ℚ

/-- `SAMHQConfig(vision_config=v, prompt_encoder_config=p,
mask_decoder_config=m, initializer_range=ir)` (configuration_sam_hq.py
lines 286-309).  Each sub-config argument is normalized to a keyword
mapping and a fresh sub-config is constructed from it; constructing the
prompt encoder can raise (division by zero on a `patch_size=0` mapping),
which propagates. -/
def SAMHQConfig.fromArgs
    (v : SubConfigValue SAMHQVisionConfig VisionArgs)
    (p : SubConfigValue SAMHQPromptEncoderConfig PromptArgs)
    (m : SubConfigValue SAMHQMaskDecoderConfig MaskArgs)
    (ir : Option ℚ) : Except PyError SAMHQConfig :=
  let vd := normalizeArg SAMHQVisionConfig.toArgs noVisionArgs v
  let pd := normalizeArg SAMHQPromptEncoderConfig.toArgs noPromptArgs p
  let md := normalizeArg SAMHQMaskDecoderConfig.toArgs noMaskArgs m
  match SAMHQPromptEncoderConfig.fromArgs pd with
  | .error e => .error e
  | .ok pc => .ok
      { vision_config := .inst (SAMHQVisionConfig.fromArgs vd)
        prompt_encoder_config := .inst pc
        mask_decoder_config := .inst (SAMHQMaskDecoderConfig.fromArgs md)
        initializer_range := ir.getD (2/100) }

/-!
Reference-semantics model of `global_attn_indexes`.

The value-level `SAMHQVisionConfig.fromArgs` above cannot express Python
list aliasing, so the handling of the one mutable default in the file —
`global_attn_indexes=[2, 5, 8, 11]` on line 206, stored without copying
on line 229 — is modelled again over an explicit list store.  In Python
the default list is allocated once, when the `def` is evaluated at module
load; every call that omits the argument receives a reference to that
same list object.
-/

/-- A store of Python list objects, addressed by allocation index. -/
structure PyListStore where
  cells : List (List Int)
  deriving DecidableEq, Repr

/-- Dereference a list object (out-of-range reads give `[]`; all
references used below are in range). -/
def PyListStore.read (s : PyListStore) (r : Nat) : List Int :=
  (s.cells.get? r).getD []

/-- `lst[i] = v` through a reference: mutates the store, not the
reference. -/
def PyListStore.writeAt (s : PyListStore) (r : Nat) (i : Nat) (v : Int) :
    PyListStore :=
  ⟨s.cells.take r ++ [((s.cells.get? r).getD []).set i v] ++
    s.cells.drop (r + 1)⟩

/-- The store as module load leaves it: the default list `[2, 5, 8, 11]`
of `SAMHQVisionConfig.__init__` (line 206) allocated at address 0. -/
def moduleLoadStore : PyListStore := ⟨[[2, 5, 8, 11]]⟩

/-- The reference to the shared default list. -/
def defaultGAIRef : Nat := 0

/-- The `global_attn_indexes` attribute in the reference model: a
reference to a list object in the store. -/
structure SAMHQVisionConfigRef where
  global_attn_indexes : Nat
  deriving DecidableEq, Repr

/-- The `global_attn_indexes` handling of `SAMHQVisionConfig.__init__`
in the reference model (lines 206 and 229): an omitted argument means the
shared default reference, and line 229 stores whatever reference it has —
no list is allocated or copied, the store is untouched. -/
def samhqVisionInitRef (s : PyListStore) (gai : Option Nat) :
    PyListStore × SAMHQVisionConfigRef :=
  (s, ⟨gai.getD defaultGAIRef⟩)

/-- A vision config constructed with a non-default `window_size` (the
instance the spec's example passes to the top-level constructor). -/
def visionWindow7 : SAMHQVisionConfig :=
  SAMHQVisionConfig.fromArgs { noVisionArgs with window_size := some 7 }

/-- The default-constructed prompt encoder config, spelled out
(`SAMHQPromptEncoderConfig()` succeeds since the default `patch_size` is
16). -/
def promptDefault : SAMHQPromptEncoderConfig :=
  ⟨256, 1024, 16, 64, 16, 4, "gelu", 1/1000000⟩

/-- Round-trip of a vision config through its keyword mapping: every
field of `to_dict` is present, so reconstruction reproduces the instance
exactly (the stored `mlp_dim` is a concrete int, so the `is None` branch
is not taken and `mlp_ratio` is not reapplied). -/
theorem vision_roundtrip (c : SAMHQVisionConfig) :
    SAMHQVisionConfig.fromArgs c.toArgs = c := rfl

/-- C1, as the claim states it, is false: construction with a negative
`patch_size` DOES return an instance — the source has no `patch_size`
validation at all (configuration_sam_hq.py lines 49-68); only
`patch_size=0` fails, and with `ZeroDivisionError` from line 64's
division, not a `ConfigurationError`.  Here `patch_size=-16` constructs
successfully. -/
theorem C1_counterexample :
    ∃ c, SAMHQPromptEncoderConfig.fromArgs
      { noPromptArgs with patch_size := some (-16) } = .ok c ∧
      c.patch_size = -16 := ⟨_, rfl, rfl⟩

/-- C1 amended: constructing `SAMHQPromptEncoderConfig` with
`patch_size=0` fails by raising `ZeroDivisionError` (not a
`ConfigurationError`, which does not exist in the source), and for every
strictly negative `patch_size` construction succeeds and returns an
instance carrying that `patch_size`. -/
theorem C1_amended (a : PromptArgs) :
    (a.patch_size = some 0 →
      SAMHQPromptEncoderConfig.fromArgs a = .error .zeroDivisionError) ∧
    (∀ p : Int, a.patch_size = some p → p < 0 →
      ∃ c, SAMHQPromptEncoderConfig.fromArgs a = .ok c ∧
        c.patch_size = p) := by
  constructor
  · intro h0
    simp only [SAMHQPromptEncoderConfig.fromArgs, h0, Option.getD_some]
    exact if_pos trivial
  · intro p hp hneg
    simp only [SAMHQPromptEncoderConfig.fromArgs, hp, Option.getD_some]
    rw [if_neg (by omega : ¬ p = 0)]
    exact ⟨_, rfl, rfl⟩

/-- C1 witness: both branches of the amended claim at concrete inputs
(`patch_size=0` errors; `patch_size=-16` constructs). -/
theorem C1_amended_witness :
    SAMHQPromptEncoderConfig.fromArgs
      { noPromptArgs with patch_size := some 0 } =
        .error .zeroDivisionError ∧
    ∃ c, SAMHQPromptEncoderConfig.fromArgs
      { noPromptArgs with patch_size := some (-16) } = .ok c ∧
      c.patch_size = -16 :=
  ⟨(C1_amended { noPromptArgs with patch_size := some 0 }).1 rfl,
   (C1_amended { noPromptArgs with patch_size := some (-16) }).2
     (-16) rfl (by decide)⟩

/-- C2: the claim is right about the intent and the code is wrong: the
mask decoder's downsample-rate field, documented and defaulted to 2, is
spelled `attention_downsam_hqple_rate` in the source (configuration
lines 114 and 129, and its own docstring line 92 reads "The
downsam_hqpling rate" — the word "downsample" mangled by the
`sam` -> `sam_hq` rename), so no attribute named
`attention_downsample_rate` is stored; the value 2 is stored under the
mangled name. -/
theorem C2_field_name_mangled :
    "attention_downsample_rate" ∉ SAMHQMaskDecoderConfig.attrNames ∧
    "attention_downsam_hqple_rate" ∈ SAMHQMaskDecoderConfig.attrNames ∧
    (SAMHQMaskDecoderConfig.fromArgs noMaskArgs).attention_downsam_hqple_rate
      = 2 := by
  refine ⟨by decide, by decide, rfl⟩

/-- C3: for every construction with `patch_size = P > 0` dividing
`image_size = I`, the stored `image_embedding_size` is `I // P`
(floor division, line 64), computed at construction time. -/
theorem C3_image_embedding_size (a : PromptArgs) (I P : Int)
    (hI : a.image_size = some I) (hP : a.patch_size = some P)
    (hpos : 0 < P) (_hdvd : P ∣ I) :
    ∃ c, SAMHQPromptEncoderConfig.fromArgs a = .ok c ∧
      c.image_embedding_size = Int.fdiv I P := by
  simp only [SAMHQPromptEncoderConfig.fromArgs, hI, hP, Option.getD_some]
  rw [if_neg (by omega : ¬ P = 0)]
  exact ⟨_, rfl, rfl⟩

/-- C3 witness: `image_size=1024, patch_size=16` constructs with
`image_embedding_size = 64`. -/
theorem C3_witness :
    ∃ c, SAMHQPromptEncoderConfig.fromArgs
      { noPromptArgs with image_size := some 1024,
                          patch_size := some 16 } = .ok c ∧
      c.image_embedding_size = 64 := by
  obtain ⟨c, hc, he⟩ := C3_image_embedding_size
    { noPromptArgs with image_size := some 1024, patch_size := some 16 }
    1024 16 rfl rfl (by decide) (by decide)
  exact ⟨c, hc, by rw [he]; decide⟩

/-- C4: when `mlp_dim` is not supplied, the stored `mlp_dim` is
`int(hidden_size * mlp_ratio)` — truncation toward zero (line 231); with
the defaults it is 3072; a supplied `mlp_dim` is stored verbatim. -/
theorem C4_mlp_dim_derivation (a b : VisionArgs) (m : Int)
    (ha : a.mlp_dim = none) (hb : b.mlp_dim = some m) :
    (SAMHQVisionConfig.fromArgs a).mlp_dim =
      pyInt (((a.hidden_size.getD 768 : Int) : ℚ) * a.mlp_ratio.getD 4) ∧
    (SAMHQVisionConfig.fromArgs noVisionArgs).mlp_dim = 3072 ∧
    (SAMHQVisionConfig.fromArgs b).mlp_dim = m := by
  refine ⟨?_, ?_, ?_⟩
  · simp only [SAMHQVisionConfig.fromArgs, ha]
  · norm_num [SAMHQVisionConfig.fromArgs, pyInt, noVisionArgs]
  · simp only [SAMHQVisionConfig.fromArgs, hb]

/-- C4 witness: the derivation at the all-defaults call and the verbatim
override at `mlp_dim=1000` with `hidden_size=768, mlp_ratio=4.0`. -/
theorem C4_witness :
    noVisionArgs.mlp_dim = none ∧
    (SAMHQVisionConfig.fromArgs noVisionArgs).mlp_dim = 3072 ∧
    (SAMHQVisionConfig.fromArgs
      { noVisionArgs with hidden_size := some 768, mlp_ratio := some 4,
                          mlp_dim := some 1000 }).mlp_dim = 1000 :=
  ⟨rfl,
   (C4_mlp_dim_derivation noVisionArgs
     { noVisionArgs with hidden_size := some 768, mlp_ratio := some 4,
                         mlp_dim := some 1000 } 1000 rfl rfl).2.1,
   (C4_mlp_dim_derivation noVisionArgs
     { noVisionArgs with hidden_size := some 768, mlp_ratio := some 4,
                         mlp_dim := some 1000 } 1000 rfl rfl).2.2⟩

/-- C5, as the claim states it, is false: the derived `mlp_dim` is NOT
round-to-nearest for all inputs.  At `hidden_size=1, mlp_ratio=0.75`
(0.75 is exactly representable as a float) line 231 stores
`int(1 * 0.75) = 0`, while rounding to nearest gives 1. -/
theorem C5_counterexample :
    (SAMHQVisionConfig.fromArgs
      { noVisionArgs with hidden_size := some 1,
                          mlp_ratio := some (3/4) }).mlp_dim = 0 ∧
    specRound (((1 : Int) : ℚ) * (3/4)) = 1 ∧ (0 : Int) ≠ 1 := by
  refine ⟨?_, ?_, by decide⟩
  · norm_num [SAMHQVisionConfig.fromArgs, pyInt, noVisionArgs]
    decide
  · norm_num [specRound]

/-- C5 amended: when `mlp_dim` is not supplied the stored `mlp_dim`
equals `int(hidden_size * mlp_ratio)` — truncation toward zero, which
agrees with round-to-nearest only when it happens to (e.g. when the
product is an integer), not for all values of `hidden_size` and
`mlp_ratio`. -/
theorem C5_amended (a : VisionArgs) (ha : a.mlp_dim = none) :
    (SAMHQVisionConfig.fromArgs a).mlp_dim =
      pyInt (((a.hidden_size.getD 768 : Int) : ℚ) * a.mlp_ratio.getD 4) := by
  simp only [SAMHQVisionConfig.fromArgs, ha]

/-- C5 witness: the amended derivation at `hidden_size=1,
mlp_ratio=0.75`, where the truncated value is 0. -/
theorem C5_amended_witness :
    ({ noVisionArgs with hidden_size := some 1,
                         mlp_ratio := some (3/4) } : VisionArgs).mlp_dim
        = none ∧
    (SAMHQVisionConfig.fromArgs
      { noVisionArgs with hidden_size := some 1,
                          mlp_ratio := some (3/4) }).mlp_dim =
      pyInt ((((1 : Int) : ℚ)) * (3/4)) :=
  ⟨rfl, C5_amended
    { noVisionArgs with hidden_size := some 1, mlp_ratio := some (3/4) }
    rfl⟩

/-- C6: whatever form each sub-config argument takes — absent (`None`),
an already-constructed instance, or a keyword mapping — a completed
`SAMHQConfig` construction stores a concrete constructed instance in
each of the three sub-config attributes (lines 295-308): never `None`,
never a raw mapping. -/
theorem C6_subconfigs_concrete
    (v : SubConfigValue SAMHQVisionConfig VisionArgs)
    (p : SubConfigValue SAMHQPromptEncoderConfig PromptArgs)
    (m : SubConfigValue SAMHQMaskDecoderConfig MaskArgs)
    (ir : Option ℚ) (c : SAMHQConfig)
    (h : SAMHQConfig.fromArgs v p m ir = .ok c) :
    (∃ vc, c.vision_config = .inst vc) ∧
    (∃ pc, c.prompt_encoder_config = .inst pc) ∧
    (∃ mc, c.mask_decoder_config = .inst mc) := by
  revert h
  simp only [SAMHQConfig.fromArgs]
  cases hp : SAMHQPromptEncoderConfig.fromArgs
      (normalizeArg SAMHQPromptEncoderConfig.toArgs noPromptArgs p) with
  | error e => intro h; cases h
  | ok pc =>
      intro h
      cases h
      exact ⟨⟨_, rfl⟩, ⟨_, rfl⟩, ⟨_, rfl⟩⟩

/-- C6 witness: the all-defaults construction succeeds and all three
attributes are constructed instances. -/
theorem C6_witness :
    ∃ c, SAMHQConfig.fromArgs .pynone .pynone .pynone none = .ok c ∧
      ((∃ vc, c.vision_config = .inst vc) ∧
       (∃ pc, c.prompt_encoder_config = .inst pc) ∧
       (∃ mc, c.mask_decoder_config = .inst mc)) := by
  have h : SAMHQConfig.fromArgs .pynone .pynone .pynone none =
      .ok ⟨.inst (SAMHQVisionConfig.fromArgs noVisionArgs),
           .inst promptDefault,
           .inst (SAMHQMaskDecoderConfig.fromArgs noMaskArgs),
           2/100⟩ := rfl
  exact ⟨_, h, C6_subconfigs_concrete _ _ _ _ _ h⟩

/-- C7: passing an already-constructed vision config instance to the
top-level constructor round-trips it through `to_dict` and back (lines
299-300 and 306) without changing any field: the stored vision config
equals the passed instance, so a non-default field such as
`window_size=7` survives. -/
theorem C7_instance_preserved (vc : SAMHQVisionConfig)
    (p : SubConfigValue SAMHQPromptEncoderConfig PromptArgs)
    (m : SubConfigValue SAMHQMaskDecoderConfig MaskArgs)
    (ir : Option ℚ) (c : SAMHQConfig)
    (h : SAMHQConfig.fromArgs (.inst vc) p m ir = .ok c) :
    c.vision_config = .inst vc := by
  revert h
  simp only [SAMHQConfig.fromArgs]
  cases hp : SAMHQPromptEncoderConfig.fromArgs
      (normalizeArg SAMHQPromptEncoderConfig.toArgs noPromptArgs p) with
  | error e => intro h; cases h
  | ok pc =>
      intro h
      cases h
      simp only [normalizeArg, vision_roundtrip]

/-- C7 witness: a vision config with `window_size=7` passed as an
instance comes back with `window_size = 7` (and every other field)
intact. -/
theorem C7_witness :
    ∃ c, SAMHQConfig.fromArgs (.inst visionWindow7) .pynone .pynone none
        = .ok c ∧
      c.vision_config = .inst visionWindow7 ∧
      visionWindow7.window_size = 7 := by
  have h : SAMHQConfig.fromArgs (.inst visionWindow7) .pynone .pynone none =
      .ok ⟨.inst (SAMHQVisionConfig.fromArgs visionWindow7.toArgs),
           .inst promptDefault,
           .inst (SAMHQMaskDecoderConfig.fromArgs noMaskArgs),
           2/100⟩ := rfl
  exact ⟨_, h, C7_instance_preserved visionWindow7 _ _ _ _ h, rfl⟩

/-- C8: the no-argument top-level construction stores sub-configs equal
(as whole records, hence field for field) to the independently
default-constructed `SAMHQVisionConfig()`, `SAMHQPromptEncoderConfig()`
and `SAMHQMaskDecoderConfig()`. -/
theorem C8_default_subconfigs :
    ∃ c pc, SAMHQConfig.fromArgs .pynone .pynone .pynone none = .ok c ∧
      SAMHQPromptEncoderConfig.fromArgs noPromptArgs = .ok pc ∧
      c.vision_config = .inst (SAMHQVisionConfig.fromArgs noVisionArgs) ∧
      c.prompt_encoder_config = .inst pc ∧
      c.mask_decoder_config =
        .inst (SAMHQMaskDecoderConfig.fromArgs noMaskArgs) :=
  ⟨⟨.inst (SAMHQVisionConfig.fromArgs noVisionArgs),
    .inst promptDefault,
    .inst (SAMHQMaskDecoderConfig.fromArgs noMaskArgs), 2/100⟩,
   promptDefault, rfl, rfl, rfl, rfl, rfl⟩

/-- C9, as the claim states it, is false: the two instances constructed
without an explicit `global_attn_indexes` share the one default list
object allocated at module load (line 206), and line 229 stores the
reference without copying, so setting element 0 of the first instance's
list to 99 makes the second instance's list read `[99, 5, 8, 11]`
instead of its construction-time `[2, 5, 8, 11]`. -/
theorem C9_counterexample :
    (((samhqVisionInitRef (samhqVisionInitRef moduleLoadStore none).1
          none).1).writeAt
        ((samhqVisionInitRef moduleLoadStore none).2).global_attn_indexes
        0 99).read
      ((samhqVisionInitRef (samhqVisionInitRef moduleLoadStore none).1
          none).2).global_attn_indexes = [99, 5, 8, 11] ∧
    ([99, 5, 8, 11] : List Int) ≠ [2, 5, 8, 11] := by
  exact ⟨rfl, by decide⟩

/-- C9 amended: any two instances constructed without an explicit
`global_attn_indexes` hold the SAME reference to the one shared mutable
default sequence (construction neither allocates nor copies a list), so
a write through one instance's reference is read back through the
other's. -/
theorem C9_amended (s s' t : PyListStore) (i : Nat) (w : Int) :
    (samhqVisionInitRef s none).2.global_attn_indexes =
      (samhqVisionInitRef s' none).2.global_attn_indexes ∧
    (samhqVisionInitRef s none).1 = s ∧
    (t.writeAt (samhqVisionInitRef s none).2.global_attn_indexes i w).read
        (samhqVisionInitRef s' none).2.global_attn_indexes =
      (t.writeAt (samhqVisionInitRef s none).2.global_attn_indexes i
          w).read
        (samhqVisionInitRef s none).2.global_attn_indexes :=
  ⟨rfl, rfl, rfl⟩

/-- C10: a strictly negative `patch_size` raises nothing — construction
succeeds and stores `image_embedding_size` as the floor of
`image_size / patch_size` (line 64), negative for positive
`image_size`. -/
theorem C10_negative_patch_size (a : PromptArgs) (p : Int)
    (hp : a.patch_size = some p) (hneg : p < 0) :
    ∃ c, SAMHQPromptEncoderConfig.fromArgs a = .ok c ∧
      c.image_embedding_size = Int.fdiv (a.image_size.getD 1024) p := by
  simp only [SAMHQPromptEncoderConfig.fromArgs, hp, Option.getD_some]
  rw [if_neg (by omega : ¬ p = 0)]
  exact ⟨_, rfl, rfl⟩

/-- C10 witness: `image_size=1024` (defaulted), `patch_size=-16`
constructs with `image_embedding_size = -64`. -/
theorem C10_witness :
    ∃ c, SAMHQPromptEncoderConfig.fromArgs
      { noPromptArgs with patch_size := some (-16) } = .ok c ∧
      c.image_embedding_size = -64 := by
  obtain ⟨c, hc, he⟩ := C10_negative_patch_size
    { noPromptArgs with patch_size := some (-16) } (-16) rfl (by decide)
  exact ⟨c, hc, by rw [he]; decide⟩
